import Mathlib

/-!
# obs-ndi source (`src/obs-ndi-source.cpp`)

A shallow embedding of the NDI source of the plugin: the two frame
translators (`ndi_source_thread_process_video`,
`ndi_source_thread_process_audio`), the receive loop of `ndi_source_thread`
and the lifecycle callbacks (`ndi_source_create`, `ndi_source_update`,
`ndi_source_shown`, ..., `ndi_source_destroy`).

Conventions of the embedding

* C `int` / `int64_t` values are `Int`, unsigned host fields are `Nat`; every
  conversion the program performs is written out (`to_uint32`, `to_uint64`,
  `to_int`).
* Pointers and handles are `Nat`, `0` being the null pointer.
* A conversion whose result C++ leaves undefined (a binary64 value out of the
  range of `uint64_t`) gives the field the value `none`; the surrounding
  statements are still executed.
* A division by zero and a store outside the host frame's plane table end the
  call (`Outcome`): nothing the function would do after them is asserted.
* `int` products are taken in 32-bit two's complement (`to_int`).
* The three functions declared `void*` end without a `return` statement.  What
  they do up to their closing brace is modelled as written; whether control
  then goes back to the caller is a parameter of the receive loop
  (`loop_body`), and the lifecycle model (`World`) describes the executions in
  which it does.
* Calls into the host, the transport library and pthreads are recorded, in
  program order, as a list of `Effect`s.  Log lines (`blog`) are not recorded.
-/

namespace ObsNdi

/-! ## Machine arithmetic -/

/-- Conversion of an integer to `uint32_t`. -/
def to_uint32 (x : Int) : Nat := (x % 2 ^ 32).toNat

/-- Conversion of an integer to `int` (32-bit two's complement). -/
def to_int (x : Int) : Int := (x + 2 ^ 31) % 2 ^ 32 - 2 ^ 31

/-- Number of low-order bits that `n` has beyond a 53-bit significand
(`fuel` bounds the search; 971 covers the whole binary64 range). -/
def f64_excess : Nat → Nat → Nat
  | 0, _ => 0
  | fuel + 1, n => if n < 2 ^ 53 then 0 else f64_excess fuel (n / 2) + 1

/-- The binary64 value nearest to the natural number `n` (round to nearest,
ties to even), for `n` below the binary64 overflow threshold. -/
def f64_round_nat (n : Nat) : Nat :=
  let e := f64_excess 971 n
  let q := n / 2 ^ e
  let r := n % 2 ^ e
  if 2 * r < 2 ^ e then q * 2 ^ e
  else if 2 ^ e < 2 * r then (q + 1) * 2 ^ e
  else if q % 2 = 0 then q * 2 ^ e
  else (q + 1) * 2 ^ e

/-- The binary64 value nearest to the integer `x`. -/
def f64_round (x : Int) : Int :=
  if 0 ≤ x then (f64_round_nat x.toNat : Int) else -(f64_round_nat (-x).toNat : Int)

/-- The expression `t * 100.0` for an `int64_t` value `t`: `t` is converted to
binary64, the product with the (exact) constant `100.0` is rounded to
binary64.  Both results are integers. -/
def f64_times_100 (t : Int) : Int := f64_round (f64_round t * 100)

/-- The cast `(uint64_t)d` of an integral binary64 value: defined only when the
value is representable in `uint64_t`. -/
def f64_to_uint64 (d : Int) : Option Nat :=
  if 0 ≤ d ∧ d < 2 ^ 64 then some d.toNat else none

/-! ## Property values -/

/-- `PROP_SYNC_INTERNAL`. -/
def PROP_SYNC_INTERNAL : Int := 0

/-- `PROP_SYNC_NDI_TIMESTAMP`. -/
def PROP_SYNC_NDI_TIMESTAMP : Int := 1

/-- `PROP_BW_HIGHEST`. -/
def PROP_BW_HIGHEST : Int := 0

/-- `PROP_BW_LOWEST`. -/
def PROP_BW_LOWEST : Int := 1

/-- `PROP_BW_AUDIO_ONLY`. -/
def PROP_BW_AUDIO_ONLY : Int := 2

/-! ## Frames -/

/-- Modelled from the spec: the pixel encoding tags of the transport
(`NDIlib_FourCC_type_e`, declared in the transport headers); `other` stands for
every tag the program does not name. -/
inductive NDIlib_FourCC_type_e where
  | UYVY
  | UYVA
  | BGRA
  | BGRX
  | RGBA
  | RGBX
  | other (code : Nat)
  deriving DecidableEq, Repr

/-- Modelled from the spec: the host pixel formats (`enum video_format`,
declared in the host headers); `NONE` is the zero value. -/
inductive video_format where
  | NONE
  | UYVY
  | RGBA
  | BGRA
  | BGRX
  deriving DecidableEq, Repr

/-- The fields of `NDIlib_video_frame_v2_t` the program reads. -/
structure NDIlib_video_frame_v2_t where
  xres : Int
  yres : Int
  FourCC : NDIlib_FourCC_type_e
  p_data : Nat
  line_stride_in_bytes : Int
  timestamp : Int
  deriving DecidableEq, Repr

/-- The fields of the host's `obs_source_frame` the program writes:
`data[0]`, `linesize[0]`, `width`, `height`, `timestamp`, `format`, and
whether `video_format_get_parameters` has filled the colour fields with the
host defaults. -/
structure obs_source_frame where
  data0 : Nat
  linesize0 : Nat
  width : Nat
  height : Nat
  timestamp : Option Nat
  format : video_format
  color_default : Bool
  deriving DecidableEq, Repr

/-- The initializer `obs_source_frame obs_video_frame = {0}`. -/
def obs_source_frame.zero : obs_source_frame :=
  { data0 := 0, linesize0 := 0, width := 0, height := 0, timestamp := some 0,
    format := video_format.NONE, color_default := false }

/-- Modelled from the spec: the host speaker layouts (`enum speaker_layout`,
declared in the host headers). -/
inductive speaker_layout where
  | SPEAKERS_UNKNOWN
  | SPEAKERS_MONO
  | SPEAKERS_STEREO
  | SPEAKERS_2POINT1
  | SPEAKERS_4POINT0
  | SPEAKERS_QUAD
  | SPEAKERS_4POINT1
  | SPEAKERS_5POINT1
  | SPEAKERS_7POINT1
  deriving DecidableEq, Repr

/-- Modelled from the spec: the host sample formats (`enum audio_format`);
`AUDIO_FORMAT_UNKNOWN` is the zero value. -/
inductive audio_format where
  | AUDIO_FORMAT_UNKNOWN
  | AUDIO_FORMAT_FLOAT_PLANAR
  deriving DecidableEq, Repr

/-- A pointer into a buffer of `float` samples: the buffer it points into and
the offset, counted in samples, from the start of that buffer. -/
structure SamplePtr where
  buffer : Nat
  offset : Int
  deriving DecidableEq, Repr

/-- The fields of `NDIlib_audio_frame_v2_t` the program reads. -/
structure NDIlib_audio_frame_v2_t where
  sample_rate : Int
  no_channels : Int
  no_samples : Int
  timestamp : Int
  p_data : Nat
  deriving DecidableEq, Repr

/-- The fields of the host's `obs_source_audio` the program writes.  `data` is
the table of per-plane pointers, indexed from plane 0; an entry that is missing
or `none` is a null pointer. -/
structure obs_source_audio where
  data : List (Option SamplePtr)
  frames : Nat
  speakers : speaker_layout
  format : audio_format
  samples_per_sec : Nat
  timestamp : Option Nat
  deriving DecidableEq, Repr

/-- The initializer `obs_source_audio obs_audio_frame = {0}`. -/
def obs_source_audio.zero : obs_source_audio :=
  { data := [], frames := 0, speakers := speaker_layout.SPEAKERS_UNKNOWN,
    format := audio_format.AUDIO_FORMAT_UNKNOWN, samples_per_sec := 0, timestamp := some 0 }

/-- The NDI tally state `NDIlib_tally_t`. -/
structure NDIlib_tally_t where
  on_program : Bool
  on_preview : Bool
  deriving DecidableEq, Repr

/-- Modelled from the spec: the bandwidth tiers of the transport
(`NDIlib_recv_bandwidth_e`). -/
inductive NDIlib_recv_bandwidth_e where
  | highest
  | lowest
  | audio_only
  deriving DecidableEq, Repr

/-- The calls the program makes into the host allocator, pthreads, the transport
library and the host's output functions. -/
inductive Effect where
  | bzalloc
  | bfree
  | pthread_create (tid : Nat)
  | pthread_join (tid : Nat)
  | recv_create (name : String) (bandwidth : Option NDIlib_recv_bandwidth_e) (result : Nat)
  | recv_send_metadata (receiver : Nat)
  | set_async_unbuffered
  | recv_set_tally (receiver : Nat) (tally : NDIlib_tally_t)
  | recv_capture (receiver : Nat)
  | recv_free_video (receiver : Nat)
  | recv_free_audio (receiver : Nat)
  | recv_free_metadata (receiver : Nat)
  | recv_destroy (receiver : Nat)
  | output_video (frame : obs_source_frame)
  | output_audio (frame : obs_source_audio)
  deriving DecidableEq, Repr

/-! ## Frame translation -/

/-- The first `switch` of `ndi_source_thread_process_video`: the host format
after it, given the format the host frame held before. -/
def video_format_of (tag : NDIlib_FourCC_type_e) (previous : video_format) : video_format :=
  match tag with
  | NDIlib_FourCC_type_e.BGRA => video_format.BGRA
  | NDIlib_FourCC_type_e.BGRX => video_format.BGRX
  | NDIlib_FourCC_type_e.RGBA => video_format.RGBA
  | NDIlib_FourCC_type_e.RGBX => video_format.RGBA
  | NDIlib_FourCC_type_e.UYVY => video_format.UYVY
  | NDIlib_FourCC_type_e.UYVA => video_format.UYVY
  | NDIlib_FourCC_type_e.other _ => previous

/-- The second `switch` of `ndi_source_thread_process_video`; `now` is the value
`os_gettime_ns()` returns. -/
def video_timestamp (sync_mode : Int) (now : Nat) (video_frame : NDIlib_video_frame_v2_t) :
    Option Nat :=
  if sync_mode = PROP_SYNC_NDI_TIMESTAMP then
    f64_to_uint64 (f64_times_100 video_frame.timestamp)
  else
    some now

/-- The function `ndi_source_thread_process_video`: the host frame after the
call and the calls made. -/
def ndi_source_thread_process_video (video_frame : NDIlib_video_frame_v2_t)
    (obs_video_frame : obs_source_frame) (sync_mode : Int) (now : Nat) :
    obs_source_frame × List Effect :=
  let f1 := { obs_video_frame with
    format := video_format_of video_frame.FourCC obs_video_frame.format }
  let f2 := { f1 with timestamp := video_timestamp sync_mode now video_frame }
  let f3 := { f2 with
    width := to_uint32 video_frame.xres
    height := to_uint32 video_frame.yres
    linesize0 := to_uint32 video_frame.line_stride_in_bytes
    data0 := video_frame.p_data }
  let f4 := { f3 with color_default := true }
  (f4, [Effect.output_video f4])

/-- The result of one `NDIlib_recv_capture_v2` call: the frame type returned
together with the payload written through the out-parameters; `unknown` stands
for every frame type the loop does not name. -/
inductive Capture where
  | none
  | video (frame : NDIlib_video_frame_v2_t)
  | audio (frame : NDIlib_audio_frame_v2_t)
  | metadata
  | status_change
  | unknown (code : Nat)
  deriving DecidableEq, Repr

/-- One pass through the body of `while (ns->running)` in `ndi_source_thread`:
the capture call, then the `switch` on its result.  `receiver` and `sync_mode`
are the values of `ns->ndi_receiver` and `ns->sync_mode`, `obs_video_frame` the
host frame of the thread, which persists from one pass to the next.
`ndi_source_thread_process_video` is declared `void*` and ends without a
`return` statement; `returns` says whether control comes back to the loop from
its closing brace, which C++ leaves undefined: only then is the video free call
made. -/
def loop_body (returns : Bool) (receiver : Nat) (sync_mode : Int)
    (obs_video_frame : obs_source_frame) (c : Capture) (now : Nat) :
    obs_source_frame × List Effect :=
  match c with
  | Capture.none => (obs_video_frame, [Effect.recv_capture receiver])
  | Capture.video video_frame =>
    let r := ndi_source_thread_process_video video_frame obs_video_frame sync_mode now
    (r.1, Effect.recv_capture receiver ::
      (r.2 ++ if returns then [Effect.recv_free_video receiver] else []))
  | Capture.audio _ =>
    (obs_video_frame, [Effect.recv_capture receiver, Effect.recv_free_audio receiver])
  | Capture.metadata =>
    (obs_video_frame, [Effect.recv_capture receiver, Effect.recv_free_metadata receiver])
  | Capture.status_change => (obs_video_frame, [Effect.recv_capture receiver])
  | Capture.unknown _ => (obs_video_frame, [Effect.recv_capture receiver])

/-- The settings object (`obs_data_t`) as far as the program reads it: the
values stored under `ndi_source_name`, `ndi_bw_mode`, `ndi_recv_hw_accel` and
`ndi_sync`. -/
structure obs_data_t where
  ndi_source_name : String
  ndi_bw_mode : Int
  ndi_recv_hw_accel : Bool
  ndi_sync : Int
  deriving DecidableEq, Repr

/-- The instance data `struct ndi_source`. -/
structure ndi_source where
  source : Nat
  settings : Option obs_data_t
  ndi_receiver : Nat
  sync_mode : Int
  single_thread : Nat
  running : Bool
  tally : NDIlib_tally_t
  alpha_filter_enabled : Bool
  deriving DecidableEq, Repr

/-- How far a worker thread has run: not yet past `NDIlib_recv_create_v2`
(`spawned`), inside the receive loop with its local host frame (`receiving`), or
returned from `ndi_source_thread` (`returned`). -/
inductive Phase where
  | spawned
  | receiving (obs_video_frame : obs_source_frame)
  | returned
  deriving DecidableEq, Repr

/-- A thread created by `pthread_create` and not yet joined. -/
structure Thread where
  tid : Nat
  phase : Phase
  deriving DecidableEq, Repr

/-- The answers of the environment: what `obs_source_showing` and
`obs_source_active` return, and the results of the coming
`NDIlib_recv_create_v2` calls (`0`, or none left, is a failed creation). -/
structure Host where
  showing : Bool
  active : Bool
  recv_results : List Nat
  deriving DecidableEq, Repr

/-- The state of one source instance: the instance data, the threads created
and not yet joined, the next thread id `pthread_create` hands out, the
environment, and the calls made so far. -/
structure World where
  ns : ndi_source
  threads : List Thread
  next_tid : Nat
  host : Host
  trace : List Effect
  deriving DecidableEq, Repr

/-- The `switch` on `ndi_bw_mode` in `ndi_source_thread`; no case assigns
`recv_desc.bandwidth` for any other value. -/
def bandwidth_of (mode : Int) : Option NDIlib_recv_bandwidth_e :=
  if mode = PROP_BW_HIGHEST then some NDIlib_recv_bandwidth_e.highest
  else if mode = PROP_BW_LOWEST then some NDIlib_recv_bandwidth_e.lowest
  else if mode = PROP_BW_AUDIO_ONLY then some NDIlib_recv_bandwidth_e.audio_only
  else none

/-- The function `obs_data_get_string(settings, PROP_SOURCE)`. -/
def get_source_name (settings : Option obs_data_t) : String :=
  match settings with
  | some s => s.ndi_source_name
  | none => ""

/-- The C function `strlen`. -/
def strlen (s : String) : Nat := s.utf8ByteSize

/-- The part of `ndi_source_thread` before the loop: the receiver is created and
stored in `ns->ndi_receiver`; when creation fails the thread returns, otherwise
the tally is read from the host and pushed and the thread enters the loop. -/
def thread_open (ns : ndi_source) (host : Host) : ndi_source × Host × Phase × List Effect :=
  let name := get_source_name ns.settings
  let bandwidth := bandwidth_of (ns.settings.elim 0 (fun s => s.ndi_bw_mode))
  let ns1 := { ns with sync_mode := to_int (ns.settings.elim 0 (fun s => s.ndi_sync)) }
  let receiver := host.recv_results.headD 0
  let host1 := { host with recv_results := host.recv_results.tail }
  let ns2 := { ns1 with ndi_receiver := receiver }
  let created := [Effect.recv_create name bandwidth receiver]
  if receiver = 0 then (ns2, host1, Phase.returned, created)
  else
    let accel :=
      if ns.settings.elim false (fun s => s.ndi_recv_hw_accel) then
        [Effect.recv_send_metadata receiver]
      else []
    let ns3 := { ns2 with tally := { on_preview := host.showing, on_program := host.active } }
    (ns3, host1, Phase.receiving obs_source_frame.zero,
      created ++ accel ++ [Effect.set_async_unbuffered, Effect.recv_set_tally receiver ns3.tally])

/-- The part of `ndi_source_thread` after the loop. -/
def thread_close (ns : ndi_source) : List Effect := [Effect.recv_destroy ns.ndi_receiver]

/-- A thread run from its current phase until `ndi_source_thread` returns, the
running flag being `ns.running` from now on: `none` when the thread never
returns (it stays in the loop while the flag is true).  Control that reaches
the closing brace of `ndi_source_thread` is taken to go back to pthreads. -/
def thread_finish (ns : ndi_source) (host : Host) (phase : Phase) :
    Option (ndi_source × Host × List Effect) :=
  match phase with
  | Phase.returned => some (ns, host, [])
  | Phase.receiving _ => if ns.running then none else some (ns, host, thread_close ns)
  | Phase.spawned =>
    match thread_open ns host with
    | (ns1, host1, Phase.receiving _, opened) =>
      if ns1.running then none else some (ns1, host1, opened ++ thread_close ns1)
    | (ns1, host1, _, opened) => some (ns1, host1, opened)

/-- The call `pthread_join(tid, NULL)`: the thread named runs until it returns
and is no longer joinable; the call is recorded when it returns.  A `tid` that
names no joinable thread makes the call return at once. -/
def pthread_join (w : World) (tid : Nat) : Option World :=
  match w.threads.find? (fun t => t.tid = tid) with
  | none => some { w with trace := w.trace ++ [Effect.pthread_join tid] }
  | some t =>
    match thread_finish w.ns w.host t.phase with
    | none => none
    | some (ns1, host1, effects) =>
      some { w with
        ns := ns1
        host := host1
        threads := w.threads.filter (fun t => t.tid ≠ tid)
        trace := w.trace ++ effects ++ [Effect.pthread_join tid] }

/-- The call `pthread_create(&ns->single_thread, nullptr, ndi_source_thread, data)`. -/
def pthread_create (w : World) : World :=
  { w with
    ns := { w.ns with single_thread := w.next_tid }
    threads := w.threads ++ [{ tid := w.next_tid, phase := Phase.spawned }]
    next_tid := w.next_tid + 1
    trace := w.trace ++ [Effect.pthread_create w.next_tid] }

/-! ## Lifecycle callbacks -/

/-- The function `ndi_source_update`. -/
def ndi_source_update (w : World) (settings : obs_data_t) : Option World :=
  let joined :=
    if w.ns.running then
      pthread_join { w with ns := { w.ns with running := false } } w.ns.single_thread
    else some w
  joined.bind fun w1 =>
    if strlen settings.ndi_source_name ≠ 0 then
      some (pthread_create { w1 with ns := { w1.ns with running := true, settings := some settings } })
    else some w1

/-- The instance data after `bzalloc`. -/
def ndi_source.zero : ndi_source :=
  { source := 0, settings := none, ndi_receiver := 0, sync_mode := 0, single_thread := 0,
    running := false, tally := { on_program := false, on_preview := false },
    alpha_filter_enabled := false }

/-- The function `ndi_source_create`; thread ids are handed out from 1. -/
def ndi_source_create (settings : obs_data_t) (source : Nat) (host : Host) : Option World :=
  let s := { ndi_source.zero with
    source := source, running := false, sync_mode := PROP_SYNC_INTERNAL }
  ndi_source_update
    { ns := s, threads := [], next_tid := 1, host := host, trace := [Effect.bzalloc] } settings

/-- The function `ndi_source_shown`. -/
def ndi_source_shown (s : ndi_source) : ndi_source × List Effect :=
  if s.ndi_receiver ≠ 0 then
    let s1 := { s with tally := { s.tally with on_preview := true } }
    (s1, [Effect.recv_set_tally s1.ndi_receiver s1.tally])
  else (s, [])

/-- The function `ndi_source_hidden`. -/
def ndi_source_hidden (s : ndi_source) : ndi_source × List Effect :=
  if s.ndi_receiver ≠ 0 then
    let s1 := { s with tally := { s.tally with on_preview := false } }
    (s1, [Effect.recv_set_tally s1.ndi_receiver s1.tally])
  else (s, [])

/-- The function `ndi_source_activated`. -/
def ndi_source_activated (s : ndi_source) : ndi_source × List Effect :=
  if s.ndi_receiver ≠ 0 then
    let s1 := { s with tally := { s.tally with on_program := true } }
    (s1, [Effect.recv_set_tally s1.ndi_receiver s1.tally])
  else (s, [])

/-- The function `ndi_source_deactivated`. -/
def ndi_source_deactivated (s : ndi_source) : ndi_source × List Effect :=
  if s.ndi_receiver ≠ 0 then
    let s1 := { s with tally := { s.tally with on_program := false } }
    (s1, [Effect.recv_set_tally s1.ndi_receiver s1.tally])
  else (s, [])

/-- The function `ndi_source_destroy`. -/
def ndi_source_destroy (w : World) : Option World :=
  pthread_join { w with ns := { w.ns with running := false } } w.ns.single_thread

/-! ## Runs -/

/-- What happens to a source instance: the host's callbacks, progress of a
worker thread (`thread_opens`: thread `tid` runs up to its loop;
`thread_captures`: it makes one pass through the loop), and changes of the
environment's answers. -/
inductive Event where
  | update (settings : obs_data_t)
  | shown
  | hidden
  | activated
  | deactivated
  | destroy
  | thread_opens (tid : Nat)
  | thread_captures (tid : Nat) (c : Capture) (now : Nat)
  | host_answers (host : Host)
  deriving DecidableEq, Repr

/-- A callback that runs on the instance data alone, applied to the state. -/
def World.call (w : World) (f : ndi_source → ndi_source × List Effect) : World :=
  { w with ns := (f w.ns).1, trace := w.trace ++ (f w.ns).2 }

/-- Thread `tid`, if it is created and has not yet reached
`NDIlib_recv_create_v2`, runs the part of `ndi_source_thread` before the loop. -/
def World.thread_opens (w : World) (tid : Nat) : World :=
  match w.threads.find? (fun t => t.tid = tid) with
  | some { tid := _, phase := Phase.spawned } =>
    match thread_open w.ns w.host with
    | (ns1, host1, phase, effects) =>
      { w with
        ns := ns1
        host := host1
        threads := w.threads.map (fun t => if t.tid = tid then { t with phase := phase } else t)
        trace := w.trace ++ effects }
  | _ => w

/-- Thread `tid`, if it is in its loop and reads the running flag as true,
makes one pass through the loop body with capture result `c`; the translator
of a video frame is taken to give control back to the loop. -/
def World.thread_captures (w : World) (tid : Nat) (c : Capture) (now : Nat) : World :=
  match w.threads.find? (fun t => t.tid = tid) with
  | some { tid := _, phase := Phase.receiving obs_video_frame } =>
    if w.ns.running then
      let r := loop_body true w.ns.ndi_receiver w.ns.sync_mode obs_video_frame c now
      { w with
        threads := w.threads.map
          (fun t => if t.tid = tid then { t with phase := Phase.receiving r.1 } else t)
        trace := w.trace ++ r.2 }
    else w
  | _ => w

/-- One event. -/
def step (w : World) (e : Event) : Option World :=
  match e with
  | Event.update settings => ndi_source_update w settings
  | Event.shown => some (w.call ndi_source_shown)
  | Event.hidden => some (w.call ndi_source_hidden)
  | Event.activated => some (w.call ndi_source_activated)
  | Event.deactivated => some (w.call ndi_source_deactivated)
  | Event.destroy => ndi_source_destroy w
  | Event.thread_opens tid => some (w.thread_opens tid)
  | Event.thread_captures tid c now => some (w.thread_captures tid c now)
  | Event.host_answers host => some { w with host := host }

/-- A sequence of events, from left to right. -/
def run : World → List Event → Option World
  | w, [] => some w
  | w, e :: es => (step w e).bind fun w1 => run w1 es

/-- Whether a call is a `pthread_create` or a `pthread_join`. -/
def is_thread_call (e : Effect) : Bool :=
  match e with
  | Effect.pthread_create _ => true
  | Effect.pthread_join _ => true
  | _ => false

/-- The `pthread_create` and `pthread_join` calls of a trace. -/
def thread_calls (trace : List Effect) : List Effect := trace.filter is_thread_call

/-- The threads created and not yet joined after one more call. -/
def track (live : List Nat) (e : Effect) : List Nat :=
  match e with
  | Effect.pthread_create tid => live ++ [tid]
  | Effect.pthread_join tid => live.erase tid
  | _ => live

/-- The threads a trace has created and not yet joined, in order of creation. -/
def unjoined (trace : List Effect) : List Nat := trace.foldl track []

/-- At no point of the trace is more than one thread created and not yet
joined. -/
def one_worker_at_a_time (trace : List Effect) : Prop :=
  ∀ p, p <+: trace → (unjoined p).length ≤ 1

/-- The invariant of the lifecycle: the running flag is set exactly when there
is a thread created and not yet joined, that thread is the one
`ns->single_thread` names, and it is the only one. -/
def World.consistent (w : World) : Prop :=
  (if w.ns.running then w.threads.map Thread.tid = [w.ns.single_thread] else w.threads = []) ∧
  unjoined w.trace = w.threads.map Thread.tid ∧
  one_worker_at_a_time w.trace

theorem f64_excess_of_lt (fuel n : Nat) (h : n < 2 ^ 53) : f64_excess fuel n = 0 := by
  cases fuel with
  | zero => rfl
  | succ k =>
    have h1 : n < 9007199254740992 := by norm_num at h; exact h
    simp [f64_excess, h1]

theorem f64_round_nat_of_lt (n : Nat) (h : n < 2 ^ 53) : f64_round_nat n = n := by
  simp [f64_round_nat, f64_excess_of_lt 971 n h, Nat.mod_one]

theorem f64_round_of_small (x : Int) (h0 : 0 ≤ x) (h : x < 2 ^ 53) : f64_round x = x := by
  have hx : x.toNat < 2 ^ 53 := by omega
  simp [f64_round, h0, f64_round_nat_of_lt _ hx]

theorem f64_times_100_of_small (t : Int) (h0 : 0 ≤ t) (h : t * 100 < 2 ^ 53) :
    f64_times_100 t = t * 100 := by
  have ht : t < 2 ^ 53 := by omega
  have h1 : 0 ≤ t * 100 := by omega
  rw [f64_times_100, f64_round_of_small t h0 ht, f64_round_of_small _ h1 h]

theorem to_uint32_of_nonneg (x : Int) (h0 : 0 ≤ x) (h : x < 2 ^ 32) :
    (to_uint32 x : Int) = x := by
  unfold to_uint32
  rw [Int.emod_eq_of_lt h0 h]
  exact Int.toNat_of_nonneg h0

/-! ## Lemmas on the plane table -/

/-- C1: for every sync mode and every incoming video frame,
`ndi_source_thread_process_video` sets the host format by the table
BGRA->BGRA, BGRX->BGRX, RGBA->RGBA, RGBX->RGBA, UYVY->UYVY, UYVA->UYVY, leaves
the previous format for every other tag, and stores `xres`, `yres` and
`line_stride_in_bytes` in `width`, `height` and `linesize[0]` unaltered (the
assignment to the unsigned host field is the identity on every non-negative
value). -/
theorem process_video_format_and_geometry (sync_mode : Int) (now : Nat)
    (video_frame : NDIlib_video_frame_v2_t) (obs_video_frame : obs_source_frame) :
    (video_frame.FourCC = NDIlib_FourCC_type_e.BGRA →
      (ndi_source_thread_process_video video_frame obs_video_frame sync_mode now).1.format
        = video_format.BGRA) ∧
    (video_frame.FourCC = NDIlib_FourCC_type_e.BGRX →
      (ndi_source_thread_process_video video_frame obs_video_frame sync_mode now).1.format
        = video_format.BGRX) ∧
    (video_frame.FourCC = NDIlib_FourCC_type_e.RGBA →
      (ndi_source_thread_process_video video_frame obs_video_frame sync_mode now).1.format
        = video_format.RGBA) ∧
    (video_frame.FourCC = NDIlib_FourCC_type_e.RGBX →
      (ndi_source_thread_process_video video_frame obs_video_frame sync_mode now).1.format
        = video_format.RGBA) ∧
    (video_frame.FourCC = NDIlib_FourCC_type_e.UYVY →
      (ndi_source_thread_process_video video_frame obs_video_frame sync_mode now).1.format
        = video_format.UYVY) ∧
    (video_frame.FourCC = NDIlib_FourCC_type_e.UYVA →
      (ndi_source_thread_process_video video_frame obs_video_frame sync_mode now).1.format
        = video_format.UYVY) ∧
    (∀ code, video_frame.FourCC = NDIlib_FourCC_type_e.other code →
      (ndi_source_thread_process_video video_frame obs_video_frame sync_mode now).1.format
        = obs_video_frame.format) ∧
    (ndi_source_thread_process_video video_frame obs_video_frame sync_mode now).1.width
      = to_uint32 video_frame.xres ∧
    (ndi_source_thread_process_video video_frame obs_video_frame sync_mode now).1.height
      = to_uint32 video_frame.yres ∧
    (ndi_source_thread_process_video video_frame obs_video_frame sync_mode now).1.linesize0
      = to_uint32 video_frame.line_stride_in_bytes ∧
    (0 ≤ video_frame.xres ∧ video_frame.xres < 2 ^ 32 →
      ((ndi_source_thread_process_video video_frame obs_video_frame sync_mode now).1.width : Int)
        = video_frame.xres) ∧
    (0 ≤ video_frame.yres ∧ video_frame.yres < 2 ^ 32 →
      ((ndi_source_thread_process_video video_frame obs_video_frame sync_mode now).1.height : Int)
        = video_frame.yres) ∧
    (0 ≤ video_frame.line_stride_in_bytes ∧ video_frame.line_stride_in_bytes < 2 ^ 32 →
      ((ndi_source_thread_process_video video_frame obs_video_frame sync_mode now).1.linesize0 : Int)
        = video_frame.line_stride_in_bytes) := by
  refine ⟨?_, ?_, ?_, ?_, ?_, ?_, ?_, rfl, rfl, rfl, ?_, ?_, ?_⟩
  · intro h; simp [ndi_source_thread_process_video, video_format_of, h]
  · intro h; simp [ndi_source_thread_process_video, video_format_of, h]
  · intro h; simp [ndi_source_thread_process_video, video_format_of, h]
  · intro h; simp [ndi_source_thread_process_video, video_format_of, h]
  · intro h; simp [ndi_source_thread_process_video, video_format_of, h]
  · intro h; simp [ndi_source_thread_process_video, video_format_of, h]
  · intro code h; simp [ndi_source_thread_process_video, video_format_of, h]
  · intro h; exact to_uint32_of_nonneg _ h.1 h.2
  · intro h; exact to_uint32_of_nonneg _ h.1 h.2
  · intro h; exact to_uint32_of_nonneg _ h.1 h.2

/-- C2 (as amended): in sender-timestamp mode, for every incoming video frame
whose timestamp `t` satisfies `0 ≤ t` and `t * 100 < 2 ^ 53`, the timestamp
written into the host frame, which is the frame emitted, is `t * 100`. -/
theorem process_video_sender_timestamp (now : Nat) (video_frame : NDIlib_video_frame_v2_t)
    (obs_video_frame : obs_source_frame)
    (h0 : 0 ≤ video_frame.timestamp) (h : video_frame.timestamp * 100 < 2 ^ 53) :
    (ndi_source_thread_process_video video_frame obs_video_frame
        PROP_SYNC_NDI_TIMESTAMP now).1.timestamp
      = some (video_frame.timestamp * 100).toNat ∧
    (ndi_source_thread_process_video video_frame obs_video_frame PROP_SYNC_NDI_TIMESTAMP now).2
      = [Effect.output_video (ndi_source_thread_process_video video_frame obs_video_frame
          PROP_SYNC_NDI_TIMESTAMP now).1] := by
  refine ⟨?_, rfl⟩
  have h1 : (0 : Int) ≤ video_frame.timestamp * 100 := by omega
  have h2 : video_frame.timestamp * 100 < 18446744073709551616 := by omega
  simp [ndi_source_thread_process_video, video_timestamp, f64_to_uint64,
    f64_times_100_of_small _ h0 h, h1, h2]

/-- C2, the scenario of the specification: a BGRA frame with timestamp 12345 is
emitted in sender-timestamp mode with format BGRA and timestamp 1234500. -/
theorem process_video_sender_timestamp_witness :
    (0 : Int) ≤ 12345 ∧ (12345 : Int) * 100 < 2 ^ 53 ∧
    (ndi_source_thread_process_video
        { xres := 1920, yres := 1080, FourCC := NDIlib_FourCC_type_e.BGRA, p_data := 1,
          line_stride_in_bytes := 7680, timestamp := 12345 }
        obs_source_frame.zero PROP_SYNC_NDI_TIMESTAMP 0).1.timestamp = some 1234500 ∧
    (ndi_source_thread_process_video
        { xres := 1920, yres := 1080, FourCC := NDIlib_FourCC_type_e.BGRA, p_data := 1,
          line_stride_in_bytes := 7680, timestamp := 12345 }
        obs_source_frame.zero PROP_SYNC_NDI_TIMESTAMP 0).1.format = video_format.BGRA :=
  ⟨by decide, by decide,
    (process_video_sender_timestamp 0
      { xres := 1920, yres := 1080, FourCC := NDIlib_FourCC_type_e.BGRA, p_data := 1,
        line_stride_in_bytes := 7680, timestamp := 12345 }
      obs_source_frame.zero (by decide) (by decide)).1,
    rfl⟩

/-- C2 fails as stated: in sender-timestamp mode a frame with timestamp
`2 ^ 53 + 1 = 9007199254740993` gets the host timestamp 900719925474099200,
which is not `9007199254740993 * 100`; a frame with timestamp 17304000000000123
(a count of 100 ns units since 1970 that falls in the year 2024) gets
1730400000000012288, not 1730400000000012300; a frame with timestamp `-1` gets
no defined host timestamp. -/
theorem process_video_sender_timestamp_inexact :
    (ndi_source_thread_process_video
        { xres := 1920, yres := 1080, FourCC := NDIlib_FourCC_type_e.BGRA, p_data := 1,
          line_stride_in_bytes := 7680, timestamp := 9007199254740993 }
        obs_source_frame.zero PROP_SYNC_NDI_TIMESTAMP 0).1.timestamp
      = some 900719925474099200 ∧
    (900719925474099200 : Int) ≠ 9007199254740993 * 100 ∧
    (ndi_source_thread_process_video
        { xres := 1920, yres := 1080, FourCC := NDIlib_FourCC_type_e.BGRA, p_data := 1,
          line_stride_in_bytes := 7680, timestamp := 17304000000000123 }
        obs_source_frame.zero PROP_SYNC_NDI_TIMESTAMP 0).1.timestamp
      = some 1730400000000012288 ∧
    (1730400000000012288 : Int) ≠ 17304000000000123 * 100 ∧
    (ndi_source_thread_process_video
        { xres := 1920, yres := 1080, FourCC := NDIlib_FourCC_type_e.BGRA, p_data := 1,
          line_stride_in_bytes := 7680, timestamp := -1 }
        obs_source_frame.zero PROP_SYNC_NDI_TIMESTAMP 0).1.timestamp = none := by
  refine ⟨by decide, by decide, by decide, by decide, by decide⟩

theorem thread_calls_append (a b : List Effect) :
    thread_calls (a ++ b) = thread_calls a ++ thread_calls b := by
  simp [thread_calls]

theorem foldl_track_thread_calls (d : List Effect) (live : List Nat) :
    d.foldl track live = (thread_calls d).foldl track live := by
  induction d generalizing live with
  | nil => rfl
  | cons e d ih =>
    cases e <;> simp [thread_calls, is_thread_call, track, List.filter_cons] <;>
      simpa [thread_calls] using ih _

theorem unjoined_append (a d : List Effect) :
    unjoined (a ++ d) = (thread_calls d).foldl track (unjoined a) := by
  rw [unjoined, List.foldl_append, foldl_track_thread_calls]
  rfl

theorem one_worker_append (a d : List Effect) (h : one_worker_at_a_time a)
    (hd : ∀ c, c <+: thread_calls d → (c.foldl track (unjoined a)).length ≤ 1) :
    one_worker_at_a_time (a ++ d) := by
  intro p hp
  rcases List.prefix_or_prefix_of_prefix hp (List.prefix_append a d) with h1 | h1
  · exact h p h1
  · obtain ⟨q, rfl⟩ := h1
    rw [List.prefix_append_right_inj] at hp
    rw [unjoined_append]
    exact hd _ (List.IsPrefix.filter _ hp)

theorem one_worker_nil : one_worker_at_a_time [] := by
  intro p hp
  rw [List.prefix_nil] at hp
  subst hp
  simp [unjoined]

/-! ## Lemmas on the worker -/

theorem thread_open_spec (ns : ndi_source) (host : Host) :
    (thread_open ns host).1.running = ns.running ∧
    (thread_open ns host).1.single_thread = ns.single_thread ∧
    thread_calls (thread_open ns host).2.2.2 = [] ∧
    Effect.bfree ∉ (thread_open ns host).2.2.2 := by
  unfold thread_open
  dsimp only
  split_ifs <;> simp [thread_calls, is_thread_call, List.filter_cons]

theorem thread_finish_spec (ns : ndi_source) (host : Host) (phase : Phase)
    (hr : ns.running = false) :
    ∃ ns1 host1 d, thread_finish ns host phase = some (ns1, host1, d) ∧
      ns1.running = false ∧ ns1.single_thread = ns.single_thread ∧
      thread_calls d = [] ∧ Effect.bfree ∉ d := by
  cases phase with
  | returned => exact ⟨ns, host, [], rfl, hr, rfl, rfl, by simp⟩
  | receiving f =>
    refine ⟨ns, host, thread_close ns, by simp [thread_finish, hr], hr, rfl, ?_, ?_⟩
    · simp [thread_close, thread_calls, is_thread_call]
    · simp [thread_close]
  | spawned =>
    obtain ⟨h1, h2, h3, h4⟩ := thread_open_spec ns host
    rw [hr] at h1
    unfold thread_finish
    rcases hopen : thread_open ns host with ⟨ns1, host1, ph, opened⟩
    rw [hopen] at h1 h2 h3 h4
    simp only at h1 h2 h3 h4
    cases ph with
    | receiving f =>
      refine ⟨ns1, host1, opened ++ thread_close ns1, by simp [h1], h1, h2, ?_, ?_⟩
      · rw [thread_calls_append, h3]
        simp [thread_close, thread_calls, is_thread_call]
      · simp [thread_close, h4]
    | spawned => exact ⟨ns1, host1, opened, rfl, h1, h2, h3, h4⟩
    | returned => exact ⟨ns1, host1, opened, rfl, h1, h2, h3, h4⟩

theorem loop_body_quiet (returns : Bool) (receiver : Nat) (sync_mode : Int)
    (f : obs_source_frame) (c : Capture) (now : Nat) :
    thread_calls (loop_body returns receiver sync_mode f c now).2 = [] := by
  cases c <;> cases returns <;>
    simp [loop_body, thread_calls, is_thread_call, ndi_source_thread_process_video,
      List.filter_cons]

theorem pthread_join_spec (w : World) (tid : Nat) (hr : w.ns.running = false) :
    ∃ w1 d, pthread_join w tid = some w1 ∧
      w1.trace = w.trace ++ d ++ [Effect.pthread_join tid] ∧
      thread_calls d = [] ∧ Effect.bfree ∉ d ∧
      w1.ns.running = false ∧ w1.ns.single_thread = w.ns.single_thread ∧
      w1.threads = w.threads.filter (fun t => t.tid ≠ tid) ∧
      w1.next_tid = w.next_tid := by
  unfold pthread_join
  cases hfind : w.threads.find? (fun t => t.tid = tid) with
  | none =>
    refine ⟨_, [], rfl, by simp, rfl, by simp, hr, rfl, ?_, rfl⟩
    simp only
    rw [List.find?_eq_none] at hfind
    symm
    rw [List.filter_eq_self]
    intro t ht
    simpa using hfind t ht
  | some t =>
    obtain ⟨ns1, host1, d, hfin, h1, h2, h3, h4⟩ := thread_finish_spec w.ns w.host t.phase hr
    simp only [hfin]
    exact ⟨_, d, rfl, rfl, h3, h4, h1, h2, rfl, rfl⟩

/-! ## The lifecycle invariant -/

theorem consistent_quiet (w w1 : World) (d : List Effect) (h : w.consistent)
    (ht : w1.trace = w.trace ++ d) (hq : thread_calls d = [])
    (hth : w1.threads.map Thread.tid = w.threads.map Thread.tid)
    (hr : w1.ns.running = w.ns.running)
    (hs : w1.ns.single_thread = w.ns.single_thread) : w1.consistent := by
  obtain ⟨hrun, hlive, hone⟩ := h
  refine ⟨?_, ?_, ?_⟩
  · rw [hr, hs, hth]
    by_cases hb : w.ns.running = true
    · simpa [hb] using hrun
    · simp only [hb] at hrun ⊢
      simp only [Bool.false_eq_true, if_false] at hrun ⊢
      have : w1.threads.map Thread.tid = [] := by rw [hth, hrun]; rfl
      exact List.map_eq_nil_iff.mp this
  · rw [ht, unjoined_append, hq, hth]
    exact hlive
  · rw [ht]
    refine one_worker_append _ _ hone ?_
    intro c hc
    rw [hq, List.prefix_nil] at hc
    subst hc
    exact hone _ (List.prefix_refl _)

theorem join_then_idle (w : World) (h : w.consistent) :
    ∃ w2 d2,
      (if w.ns.running then
        pthread_join { w with ns := { w.ns with running := false } } w.ns.single_thread
      else some w) = some w2 ∧
      w2.trace = w.trace ++ d2 ∧
      thread_calls d2 =
        (if w.ns.running then [Effect.pthread_join w.ns.single_thread] else []) ∧
      Effect.bfree ∉ d2 ∧
      w2.ns.running = false ∧ w2.threads = [] ∧ unjoined w2.trace = [] ∧
      one_worker_at_a_time w2.trace := by
  obtain ⟨hrun, hlive, hone⟩ := h
  by_cases hb : w.ns.running = true
  · simp only [hb, if_true] at hrun ⊢
    obtain ⟨w2, d, hj, htr, hq, hfree, hr2, _, hth, _⟩ :=
      pthread_join_spec { w with ns := { w.ns with running := false } } w.ns.single_thread rfl
    have hth2 : w2.threads = [] := by
      rw [hth]
      simp only
      rw [List.filter_eq_nil_iff]
      intro t ht
      have : t.tid ∈ w.threads.map Thread.tid := List.mem_map_of_mem _ ht
      rw [hrun] at this
      simpa using this
    have hcalls : thread_calls (d ++ [Effect.pthread_join w.ns.single_thread]) =
        [Effect.pthread_join w.ns.single_thread] := by
      rw [thread_calls_append, hq]
      simp [thread_calls, is_thread_call]
    have htr2 : w2.trace = w.trace ++ (d ++ [Effect.pthread_join w.ns.single_thread]) := by
      rw [htr]; simp
    refine ⟨w2, d ++ [Effect.pthread_join w.ns.single_thread], hj, htr2, hcalls, ?_, hr2, hth2,
      ?_, ?_⟩
    · simp [hfree]
    · rw [htr2, unjoined_append, hcalls, hlive, hrun]
      simp [track]
    · rw [htr2]
      refine one_worker_append _ _ hone ?_
      intro c hc
      rw [hcalls, ← List.mem_inits] at hc
      rw [hlive, hrun]
      simp at hc
      rcases hc with rfl | rfl <;> simp [track]
  · simp only [hb] at hrun ⊢
    simp only [Bool.false_eq_true, if_false] at hrun ⊢
    refine ⟨w, [], rfl, by simp, rfl, by simp, by simpa using hb, hrun, ?_, hone⟩
    rw [hlive, hrun]
    rfl

theorem ndi_source_update_spec (w : World) (settings : obs_data_t) (h : w.consistent) :
    ∃ w1 d, ndi_source_update w settings = some w1 ∧ w1.trace = w.trace ++ d ∧
      thread_calls d =
        (if w.ns.running then [Effect.pthread_join w.ns.single_thread] else []) ++
        (if strlen settings.ndi_source_name ≠ 0 then [Effect.pthread_create w1.ns.single_thread]
          else []) ∧
      w1.consistent := by
  obtain ⟨w2, d2, hj, htr, hq, _, hr2, hth2, hun2, hone2⟩ := join_then_idle w h
  unfold ndi_source_update
  simp only [hj, Option.some_bind]
  by_cases hname : strlen settings.ndi_source_name ≠ 0
  · simp only [if_pos hname]
    refine ⟨_, d2 ++ [Effect.pthread_create w2.next_tid], rfl, ?_, ?_, ?_, ?_, ?_⟩
    · simp [pthread_create, htr]
    · rw [thread_calls_append, hq]
      simp [thread_calls, is_thread_call, pthread_create]
    · simp [pthread_create, hth2]
    · simp [pthread_create, unjoined_append, hun2, thread_calls, is_thread_call, track, hth2]
    · simp only [pthread_create]
      refine one_worker_append _ _ hone2 ?_
      intro c hc
      rw [hun2]
      have : thread_calls [Effect.pthread_create w2.next_tid] =
          [Effect.pthread_create w2.next_tid] := by simp [thread_calls, is_thread_call]
      rw [this, ← List.mem_inits] at hc
      simp at hc
      rcases hc with rfl | rfl <;> simp [track]
  · simp only [if_neg hname]
    refine ⟨w2, d2, rfl, htr, by simp [hq], ?_, ?_, hone2⟩
    · simp [hr2, hth2]
    · rw [hun2, hth2]; rfl

theorem ndi_source_destroy_spec (w : World) (h : w.consistent) :
    ∃ w1, ndi_source_destroy w = some w1 ∧ w1.consistent := by
  unfold ndi_source_destroy
  obtain ⟨hrun, hlive, hone⟩ := h
  obtain ⟨w1, d, hj, htr, hq, _, hr1, _, hth, _⟩ :=
    pthread_join_spec { w with ns := { w.ns with running := false } } w.ns.single_thread rfl
  have hth1 : w1.threads = [] := by
    rw [hth]
    simp only
    rw [List.filter_eq_nil_iff]
    intro t ht
    by_cases hb : w.ns.running = true
    · simp only [hb, if_true] at hrun
      have : t.tid ∈ w.threads.map Thread.tid := List.mem_map_of_mem _ ht
      rw [hrun] at this
      simpa using this
    · simp only [hb] at hrun
      simp only [Bool.false_eq_true, if_false] at hrun
      rw [hrun] at ht
      simp at ht
  have hcalls : thread_calls (d ++ [Effect.pthread_join w.ns.single_thread]) =
      [Effect.pthread_join w.ns.single_thread] := by
    rw [thread_calls_append, hq]
    simp [thread_calls, is_thread_call]
  have htr1 : w1.trace = w.trace ++ (d ++ [Effect.pthread_join w.ns.single_thread]) := by
    rw [htr]; simp
  have hlen : (w.threads.map Thread.tid).length ≤ 1 := by
    rw [← hlive]; exact hone _ (List.prefix_refl _)
  have herase : ((w.threads.map Thread.tid).erase w.ns.single_thread) = [] := by
    by_cases hb : w.ns.running = true
    · simp only [hb, if_true] at hrun
      rw [hrun]; simp
    · simp only [hb] at hrun
      simp only [Bool.false_eq_true, if_false] at hrun
      rw [hrun]; rfl
  refine ⟨w1, hj, ?_, ?_, ?_⟩
  · simp [hr1, hth1]
  · rw [htr1, unjoined_append, hcalls, hlive, hth1]
    simpa [track] using herase
  · rw [htr1]
    refine one_worker_append _ _ hone ?_
    intro c hc
    rw [hcalls, ← List.mem_inits] at hc
    rw [hlive]
    simp at hc
    rcases hc with rfl | rfl
    · simpa using hlen
    · simp [track, herase]

theorem handlers_quiet (s : ndi_source) :
    ((ndi_source_shown s).1.running = s.running ∧
      (ndi_source_shown s).1.single_thread = s.single_thread ∧
      thread_calls (ndi_source_shown s).2 = []) ∧
    ((ndi_source_hidden s).1.running = s.running ∧
      (ndi_source_hidden s).1.single_thread = s.single_thread ∧
      thread_calls (ndi_source_hidden s).2 = []) ∧
    ((ndi_source_activated s).1.running = s.running ∧
      (ndi_source_activated s).1.single_thread = s.single_thread ∧
      thread_calls (ndi_source_activated s).2 = []) ∧
    ((ndi_source_deactivated s).1.running = s.running ∧
      (ndi_source_deactivated s).1.single_thread = s.single_thread ∧
      thread_calls (ndi_source_deactivated s).2 = []) := by
  unfold ndi_source_shown ndi_source_hidden ndi_source_activated ndi_source_deactivated
  split_ifs <;> simp [thread_calls, is_thread_call]

theorem call_consistent (w : World) (f : ndi_source → ndi_source × List Effect)
    (h : w.consistent)
    (hf : (f w.ns).1.running = w.ns.running ∧ (f w.ns).1.single_thread = w.ns.single_thread ∧
      thread_calls (f w.ns).2 = []) : (w.call f).consistent :=
  consistent_quiet w (w.call f) (f w.ns).2 h rfl hf.2.2 rfl hf.1 hf.2.1

theorem map_phase_tid (threads : List Thread) (tid : Nat) (phase : Phase) :
    (threads.map fun t => if t.tid = tid then { t with phase := phase } else t).map Thread.tid
      = threads.map Thread.tid := by
  induction threads with
  | nil => rfl
  | cons t rest ih =>
    simp only [List.map_cons, ih]
    split_ifs <;> rfl

theorem thread_opens_consistent (w : World) (tid : Nat) (h : w.consistent) :
    (w.thread_opens tid).consistent := by
  unfold World.thread_opens
  split
  · obtain ⟨h1, h2, h3, _⟩ := thread_open_spec w.ns w.host
    exact consistent_quiet w _ (thread_open w.ns w.host).2.2.2 h rfl h3
      (map_phase_tid _ _ _) h1 h2
  · exact h

theorem thread_captures_consistent (w : World) (tid : Nat) (c : Capture) (now : Nat)
    (h : w.consistent) : (w.thread_captures tid c now).consistent := by
  unfold World.thread_captures
  split
  · split_ifs
    · exact consistent_quiet w _ _ h rfl (loop_body_quiet _ _ _ _ _ _) (map_phase_tid _ _ _)
        rfl rfl
    · exact h
  · exact h

theorem step_consistent (w : World) (e : Event) (h : w.consistent) :
    ∃ w1, step w e = some w1 ∧ w1.consistent := by
  cases e with
  | update settings =>
    obtain ⟨w1, _, h1, _, _, h2⟩ := ndi_source_update_spec w settings h
    exact ⟨w1, h1, h2⟩
  | shown => exact ⟨_, rfl, call_consistent w _ h (handlers_quiet w.ns).1⟩
  | hidden => exact ⟨_, rfl, call_consistent w _ h (handlers_quiet w.ns).2.1⟩
  | activated => exact ⟨_, rfl, call_consistent w _ h (handlers_quiet w.ns).2.2.1⟩
  | deactivated => exact ⟨_, rfl, call_consistent w _ h (handlers_quiet w.ns).2.2.2⟩
  | destroy => exact ndi_source_destroy_spec w h
  | thread_opens tid => exact ⟨_, rfl, thread_opens_consistent w tid h⟩
  | thread_captures tid c now => exact ⟨_, rfl, thread_captures_consistent w tid c now h⟩
  | host_answers host =>
    exact ⟨_, rfl, consistent_quiet w _ [] h (by simp) rfl rfl rfl rfl⟩

theorem run_consistent (events : List Event) (w : World) (h : w.consistent) :
    ∃ w1, run w events = some w1 ∧ w1.consistent := by
  induction events generalizing w with
  | nil => exact ⟨w, rfl, h⟩
  | cons e rest ih =>
    obtain ⟨w1, h1, h2⟩ := step_consistent w e h
    obtain ⟨w2, h3, h4⟩ := ih w1 h2
    exact ⟨w2, by simp [run, h1, h3], h4⟩

theorem ndi_source_create_consistent (settings : obs_data_t) (source : Nat) (host : Host) :
    ∃ w, ndi_source_create settings source host = some w ∧ w.consistent := by
  unfold ndi_source_create
  have h0 : World.consistent
      { ns := { ndi_source.zero with
          source := source, running := false, sync_mode := PROP_SYNC_INTERNAL },
        threads := [], next_tid := 1, host := host, trace := [Effect.bzalloc] } := by
    refine ⟨by simp, by simp [unjoined, track], ?_⟩
    have := one_worker_append [] [Effect.bzalloc] one_worker_nil (by
      intro c hc
      have hq : thread_calls [Effect.bzalloc] = [] := by simp [thread_calls, is_thread_call]
      rw [hq, List.prefix_nil] at hc
      subst hc
      simp [unjoined])
    simpa using this
  obtain ⟨w1, _, h1, _, _, h2⟩ := ndi_source_update_spec _ settings h0
  exact ⟨w1, h1, h2⟩

/-! ## Lifecycle -/

/-- C4 (as amended): in every state reached by `ndi_source_create` and any
sequence of further events whose calls all return, the instance has at most one
worker created and not yet joined, and never had more at any point of the
trace; the running flag is true exactly when such a worker exists, and it is the
one `single_thread` names.  A further `ndi_source_update` that finds the flag
set joins that worker before any `pthread_create`; one that finds it clear
issues no join (no worker is unjoined); either issues a `pthread_create` exactly
when the new source name is not empty. -/
theorem update_joins_before_it_spawns (settings : obs_data_t) (source : Nat) (host : Host)
    (events : List Event) (w : World)
    (hrun : ((ndi_source_create settings source host).bind fun w0 => run w0 events) = some w) :
    w.threads.length ≤ 1 ∧
    (w.ns.running = true ↔ w.threads ≠ []) ∧
    (w.ns.running = true → w.threads.map Thread.tid = [w.ns.single_thread]) ∧
    unjoined w.trace = w.threads.map Thread.tid ∧
    one_worker_at_a_time w.trace ∧
    ∀ next w1, ndi_source_update w next = some w1 →
      ∃ calls, w1.trace = w.trace ++ calls ∧
        thread_calls calls =
          (if w.ns.running then [Effect.pthread_join w.ns.single_thread] else []) ++
          (if strlen next.ndi_source_name ≠ 0 then [Effect.pthread_create w1.ns.single_thread]
            else []) := by
  obtain ⟨w0, h0, hc0⟩ := ndi_source_create_consistent settings source host
  obtain ⟨w', hw, hc⟩ := run_consistent events w0 hc0
  have hww : w' = w := by
    rw [h0, Option.some_bind, hw] at hrun
    exact Option.some.inj hrun
  subst hww
  refine ⟨?_, ?_, ?_, hc.2.1, hc.2.2, ?_⟩
  · have := hc.2.2 _ (List.prefix_refl _)
    rw [hc.2.1] at this
    simpa using this
  · have h1 := hc.1
    by_cases hb : w'.ns.running = true
    · simp only [hb, if_true] at h1
      simp only [hb, true_iff]
      intro hnil
      rw [hnil] at h1
      simp at h1
    · simp only [hb] at h1
      simp only [Bool.false_eq_true, if_false] at h1
      simp [hb, h1]
  · intro hb
    have h1 := hc.1
    simpa [hb] using h1
  · intro next w1 hnext
    obtain ⟨w1', d, h1, h2, h3, _⟩ := ndi_source_update_spec w' next hc
    have hw1 : w1' = w1 := by
      rw [h1] at hnext
      exact Option.some.inj hnext
    subst hw1
    exact ⟨d, h2, h3⟩

/-- C4 at Create("A"), Update(""), Update("B") with a worker that is joined
before it reached its loop: the calls return in the state shown, whose trace
never has more than one thread unjoined and ends with thread 2 unjoined. -/
theorem update_joins_before_it_spawns_witness :
    ((ndi_source_create
        { ndi_source_name := "A", ndi_bw_mode := 0, ndi_recv_hw_accel := false, ndi_sync := 0 } 5
        { showing := false, active := false, recv_results := [7] }).bind
      fun w0 => run w0
        [Event.update
            { ndi_source_name := "", ndi_bw_mode := 0, ndi_recv_hw_accel := false,
              ndi_sync := 0 },
          Event.update
            { ndi_source_name := "B", ndi_bw_mode := 0, ndi_recv_hw_accel := false,
              ndi_sync := 0 }])
      = some
        { ns := { source := 5,
                  settings := some { ndi_source_name := "B", ndi_bw_mode := 0,
                                     ndi_recv_hw_accel := false, ndi_sync := 0 },
                  ndi_receiver := 7, sync_mode := 0, single_thread := 2, running := true,
                  tally := { on_program := false, on_preview := false },
                  alpha_filter_enabled := false },
          threads := [{ tid := 2, phase := Phase.spawned }],
          next_tid := 3,
          host := { showing := false, active := false, recv_results := [] },
          trace := [Effect.bzalloc, Effect.pthread_create 1,
            Effect.recv_create "A" (some NDIlib_recv_bandwidth_e.highest) 7,
            Effect.set_async_unbuffered,
            Effect.recv_set_tally 7 { on_program := false, on_preview := false },
            Effect.recv_destroy 7, Effect.pthread_join 1, Effect.pthread_create 2] } ∧
    one_worker_at_a_time
      [Effect.bzalloc, Effect.pthread_create 1,
        Effect.recv_create "A" (some NDIlib_recv_bandwidth_e.highest) 7,
        Effect.set_async_unbuffered,
        Effect.recv_set_tally 7 { on_program := false, on_preview := false },
        Effect.recv_destroy 7, Effect.pthread_join 1, Effect.pthread_create 2] ∧
    unjoined
      [Effect.bzalloc, Effect.pthread_create 1,
        Effect.recv_create "A" (some NDIlib_recv_bandwidth_e.highest) 7,
        Effect.set_async_unbuffered,
        Effect.recv_set_tally 7 { on_program := false, on_preview := false },
        Effect.recv_destroy 7, Effect.pthread_join 1, Effect.pthread_create 2] = [2] :=
  ⟨by decide,
    (update_joins_before_it_spawns
      { ndi_source_name := "A", ndi_bw_mode := 0, ndi_recv_hw_accel := false, ndi_sync := 0 } 5
      { showing := false, active := false, recv_results := [7] }
      [Event.update
          { ndi_source_name := "", ndi_bw_mode := 0, ndi_recv_hw_accel := false, ndi_sync := 0 },
        Event.update
          { ndi_source_name := "B", ndi_bw_mode := 0, ndi_recv_hw_accel := false,
            ndi_sync := 0 }]
      { ns := { source := 5,
                settings := some { ndi_source_name := "B", ndi_bw_mode := 0,
                                   ndi_recv_hw_accel := false, ndi_sync := 0 },
                ndi_receiver := 7, sync_mode := 0, single_thread := 2, running := true,
                tally := { on_program := false, on_preview := false },
                alpha_filter_enabled := false },
        threads := [{ tid := 2, phase := Phase.spawned }],
        next_tid := 3,
        host := { showing := false, active := false, recv_results := [] },
        trace := [Effect.bzalloc, Effect.pthread_create 1,
          Effect.recv_create "A" (some NDIlib_recv_bandwidth_e.highest) 7,
          Effect.set_async_unbuffered,
          Effect.recv_set_tally 7 { on_program := false, on_preview := false },
          Effect.recv_destroy 7, Effect.pthread_join 1, Effect.pthread_create 2] }
      (by decide)).2.2.2.2.1,
    by decide⟩

/-- C4 fails as stated: after Create("A") and Update(""), which joins worker 1
and leaves the running flag false, Update("B") issues `pthread_create` for
worker 2 and no `pthread_join`: the join of the previously spawned worker was
made by the earlier call, not within the same Update call. -/
theorem update_spawns_without_join_in_same_call :
    (((ndi_source_create
        { ndi_source_name := "A", ndi_bw_mode := 0, ndi_recv_hw_accel := false, ndi_sync := 0 } 5
        { showing := false, active := false, recv_results := [7] }).bind
      fun w0 => run w0
        [Event.update
          { ndi_source_name := "", ndi_bw_mode := 0, ndi_recv_hw_accel := false,
            ndi_sync := 0 }]).bind
      fun w =>
        (ndi_source_update w
          { ndi_source_name := "B", ndi_bw_mode := 0, ndi_recv_hw_accel := false,
            ndi_sync := 0 }).map
          fun w1 => (w.ns.running, w.trace, w1.trace))
    = some (false,
        [Effect.bzalloc, Effect.pthread_create 1,
          Effect.recv_create "A" (some NDIlib_recv_bandwidth_e.highest) 7,
          Effect.set_async_unbuffered,
          Effect.recv_set_tally 7 { on_program := false, on_preview := false },
          Effect.recv_destroy 7, Effect.pthread_join 1],
        [Effect.bzalloc, Effect.pthread_create 1,
          Effect.recv_create "A" (some NDIlib_recv_bandwidth_e.highest) 7,
          Effect.set_async_unbuffered,
          Effect.recv_set_tally 7 { on_program := false, on_preview := false },
          Effect.recv_destroy 7, Effect.pthread_join 1] ++ [Effect.pthread_create 2]) := by
  decide

/-- C5: on every state `ndi_source_destroy` returns, having set the running
flag to false and then joined the thread `single_thread` names, whether or not
a worker is still running; the join is its last call: the instance is not
freed. -/
theorem destroy_joins_and_never_frees (w : World) :
    ∃ w1 worker_calls, ndi_source_destroy w = some w1 ∧
      w1.ns.running = false ∧
      w1.trace = w.trace ++ worker_calls ++ [Effect.pthread_join w.ns.single_thread] ∧
      thread_calls worker_calls = [] ∧
      Effect.bfree ∉ worker_calls ++ [Effect.pthread_join w.ns.single_thread] := by
  obtain ⟨w1, d, hj, htr, hq, hfree, hr1, _, _, _⟩ :=
    pthread_join_spec { w with ns := { w.ns with running := false } } w.ns.single_thread rfl
  exact ⟨w1, d, hj, hr1, htr, hq, by simp [hfree]⟩

/-- C7 (as amended): on a source instance whose receiver handle is absent,
every sequence of Show and Hide calls leaves, after each call, the instance as
it was (in particular `tally.on_preview`) and makes no call at all, so no
set-tally call. -/
theorem show_hide_without_receiver (w : World) (calls : List Event)
    (hnull : w.ns.ndi_receiver = 0)
    (hcalls : ∀ e ∈ calls, e = Event.shown ∨ e = Event.hidden) :
    ∀ p, p <+: calls → run w p = some w := by
  intro p hp
  have hp' : ∀ e ∈ p, e = Event.shown ∨ e = Event.hidden :=
    fun e he => hcalls e (hp.subset he)
  clear hp hcalls
  induction p with
  | nil => rfl
  | cons e rest ih =>
    have hrest : ∀ e ∈ rest, e = Event.shown ∨ e = Event.hidden :=
      fun x hx => hp' x (List.mem_cons_of_mem _ hx)
    have hstep : step w e = some w := by
      rcases hp' e (List.mem_cons_self _ _) with rfl | rfl
      · simp [step, World.call, ndi_source_shown, hnull]
      · simp [step, World.call, ndi_source_hidden, hnull]
    simp [run, hstep, ih hrest]

/-- C7 at the sequence show, hide, show on the instance that
`ndi_source_create` leaves for an empty source name: the receiver handle is
absent and the three calls leave the instance as it was. -/
theorem show_hide_without_receiver_witness :
    ({ ndi_source.zero with source := 5 } : ndi_source).ndi_receiver = 0 ∧
    (∀ e ∈ [Event.shown, Event.hidden, Event.shown], e = Event.shown ∨ e = Event.hidden) ∧
    run
      { ns := { ndi_source.zero with source := 5 }, threads := [], next_tid := 1,
        host := { showing := true, active := false, recv_results := [] },
        trace := [Effect.bzalloc] }
      [Event.shown, Event.hidden, Event.shown]
    = some
      { ns := { ndi_source.zero with source := 5 }, threads := [], next_tid := 1,
        host := { showing := true, active := false, recv_results := [] },
        trace := [Effect.bzalloc] } :=
  ⟨rfl, by decide,
    show_hide_without_receiver
      { ns := { ndi_source.zero with source := 5 }, threads := [], next_tid := 1,
        host := { showing := true, active := false, recv_results := [] },
        trace := [Effect.bzalloc] }
      [Event.shown, Event.hidden, Event.shown] rfl (by decide) _ (List.prefix_refl _)⟩

/-- C7 fails as stated: on the instance `ndi_source_create` returns for an empty
source name the receiver handle is absent, and after a Show call
`tally.on_preview` is still false. -/
theorem show_without_receiver_is_dropped :
    ((ndi_source_create
        { ndi_source_name := "", ndi_bw_mode := 0, ndi_recv_hw_accel := false, ndi_sync := 0 } 5
        { showing := true, active := false, recv_results := [] }).bind
      fun w => run w [Event.shown]).map
      (fun w => (w.ns.ndi_receiver, w.ns.tally.on_preview, w.trace))
    = some (0, false, [Effect.bzalloc]) := by
  decide

/-- C3, evaluated: an instance is created for the source "CAM1", its worker
opens receiver 7, and `ndi_source_update` is called with an empty source name.
The call returns with the running flag false and the worker joined, its
receiver destroyed, and `ndi_receiver` still holding the handle 7.  On a freshly
created instance the same call leaves the handle null. -/
theorem update_empty_name_leaves_stale_receiver :
    ((ndi_source_create
        { ndi_source_name := "CAM1", ndi_bw_mode := 1, ndi_recv_hw_accel := false,
          ndi_sync := 1 } 5
        { showing := true, active := false, recv_results := [7] }).bind
      fun w => run w
        [Event.thread_opens 1,
          Event.update
            { ndi_source_name := "", ndi_bw_mode := 0, ndi_recv_hw_accel := false,
              ndi_sync := 0 }]).map
      (fun w => (w.ns.running, w.ns.ndi_receiver, w.threads, w.trace))
    = some (false, 7, [],
        [Effect.bzalloc, Effect.pthread_create 1,
          Effect.recv_create "CAM1" (some NDIlib_recv_bandwidth_e.lowest) 7,
          Effect.set_async_unbuffered,
          Effect.recv_set_tally 7 { on_program := false, on_preview := true },
          Effect.recv_destroy 7, Effect.pthread_join 1]) ∧
    ((ndi_source_create
        { ndi_source_name := "", ndi_bw_mode := 0, ndi_recv_hw_accel := false, ndi_sync := 0 } 5
        { showing := true, active := false, recv_results := [7] }).bind
      fun w => run w
        [Event.update
          { ndi_source_name := "", ndi_bw_mode := 0, ndi_recv_hw_accel := false,
            ndi_sync := 0 }]).map
      (fun w => (w.ns.running, w.ns.ndi_receiver))
    = some (false, 0) := by
  refine ⟨by decide, by decide⟩

/-- C6, evaluated: an instance is created for the source "CAM1", its worker
opens receiver 7, `ndi_source_update` with an empty source name stops and joins
the worker, which destroys receiver 7, and then the host calls
`ndi_source_shown`.  The handler finds `ndi_receiver` non-null and calls
set-tally on receiver 7, after that receiver was destroyed. -/
theorem show_after_close_calls_set_tally :
    ((ndi_source_create
        { ndi_source_name := "CAM1", ndi_bw_mode := 1, ndi_recv_hw_accel := false,
          ndi_sync := 1 } 5
        { showing := false, active := false, recv_results := [7] }).bind
      fun w => run w
        [Event.thread_opens 1,
          Event.update
            { ndi_source_name := "", ndi_bw_mode := 0, ndi_recv_hw_accel := false,
              ndi_sync := 0 },
          Event.shown]).map
      (fun w => (w.threads, w.trace))
    = some ([],
        [Effect.bzalloc, Effect.pthread_create 1,
          Effect.recv_create "CAM1" (some NDIlib_recv_bandwidth_e.lowest) 7,
          Effect.set_async_unbuffered,
          Effect.recv_set_tally 7 { on_program := false, on_preview := false },
          Effect.recv_destroy 7, Effect.pthread_join 1,
          Effect.recv_set_tally 7 { on_program := false, on_preview := true }]) := by
  decide

end ObsNdi
